import Mathlib

/-!
Shallow embedding of `src/platform/common/process/baseDaemon.node.ts`
(class `BasePythonDaemon`): the capability gate, response post-processing,
the exec / execModule / execObservable dispatch with its fallback to the
`pythonExecutionService`, the request race against the closed-state
deferred, and the state machine driven by `dispose()` and the
`monitorConnection` triggers.
-/

namespace BaseDaemon

/-- JavaScript truthiness of an optional string field: `undefined` and the
empty string are both falsy. -/
def truthyOpt : Option String → Bool
  | none => false
  | some s => s ≠ ""

/-- Model of `ExecResponse = ErrorResponse & { stdout: string; stderr?: string }`. -/
structure ExecResponse where
  error : Option String
  stdout : String
  stderr : Option String
  deriving Repr, DecidableEq

/-- Model of `SpawnOptions` as read by this class: `keys` models
`Object.keys(options)` (the properties actually present on the JS object),
and the two boolean fields model the truthiness of the `throwOnStdErr` /
`mergeStdOutErr` options read by `processResponse` and `execAsObservable`. -/
structure SpawnOptions where
  keys : List String
  throwOnStdErr : Bool
  mergeStdOutErr : Bool
  deriving Repr, DecidableEq

/-- Error values daemon execution can produce: `DaemonError`, `StdErrError`,
`ConnectionClosedError`, the runtime `TypeError` raised by calling
`toLowerCase` on `args[0]` of an empty array, and any other error class. -/
inductive ExecError where
  | daemonError (msg : String)
  | stdErrError (msg : String)
  | connectionClosedError (msg : String)
  | typeError
  | otherError (msg : String)
  deriving Repr, DecidableEq

/-- The fixed allow-list `daemonSupportedSpawnOptions` of `areOptionsSupported`. -/
def daemonSupportedSpawnOptions : List String :=
  ["cwd", "env", "throwOnStdErr", "token", "encoding", "mergeStdOutErr"]

/-- Model of `areOptionsSupported`: `Object.keys(options).every(item =>
daemonSupportedSpawnOptions.indexOf(item) >= 0)`; `indexOf(item) >= 0` is
list membership. -/
def areOptionsSupported (options : SpawnOptions) : Bool :=
  options.keys.all fun item => daemonSupportedSpawnOptions.contains item

/-- Model of `String.prototype.toLowerCase` as used on file paths,
characterwise over the string's characters. -/
def jsToLowerCase (s : String) : String :=
  String.mk (s.data.map Char.toLower)

/-- Model of `String.prototype.endsWith`: the last characters of `s` equal
`suffix` (false when `s` is shorter than `suffix`, since the lengths then
differ). -/
def jsEndsWith (s suffix : String) : Bool :=
  s.data.drop (s.data.length - suffix.data.length) == suffix.data

/-- Model of `canExecFileUsingDaemon`:
`args[0].toLowerCase().endsWith('.py') && this.areOptionsSupported(options)`.
Reading `args[0]` of an empty array yields `undefined`, and
`undefined.toLowerCase()` raises a `TypeError`, modelled by the error case. -/
def canExecFileUsingDaemon (args : List String) (options : SpawnOptions) :
    Except ExecError Bool :=
  match args with
  | [] => .error .typeError
  | a :: _ => .ok (jsEndsWith (jsToLowerCase a) ".py" && areOptionsSupported options)

/-- Model of `canExecModuleUsingDaemon`: module calls only check the options. -/
def canExecModuleUsingDaemon (_moduleName : String) (_args : List String)
    (options : SpawnOptions) : Bool :=
  areOptionsSupported options

/-- Model of `processResponse`, parameterised by the platform line separator
`os.EOL`. The source mutates `response` in place; here the updated response
is returned. The merge branch only reassigns `response.stdout` — the
`stderr` field is left on the response object. -/
def processResponse (eol : String) (response : ExecResponse)
    (options : SpawnOptions) : Except ExecError ExecResponse :=
  if truthyOpt response.error then
    .error (.daemonError ("Failed to execute using the daemon, " ++ response.error.getD ""))
  else if truthyOpt response.stderr && options.throwOnStdErr then
    .error (.stdErrError (response.stderr.getD ""))
  else if truthyOpt response.stderr && options.mergeStdOutErr then
    .ok { response with
          stdout := (if response.stdout = "" then "" else response.stdout) ++ eol
            ++ response.stderr.getD "" }
  else
    .ok response

/-- Settlement of a `sendRequest` promise as seen by the exec pipeline:
either the shared closed-state deferred rejected first (`closed`, carrying
the `ConnectionClosedError` message) or the daemon's response arrived. -/
inductive DaemonReply where
  | closed (msg : String)
  | reply (response : ExecResponse)
  deriving Repr, DecidableEq

/-- Model of `execFileWithDaemon` / `execModuleWithDaemon` past the request
send (the two differ only in the request method and payload shape): the
awaited reply is post-processed by `processResponse` and returned. -/
def execWithDaemon (eol : String) (options : SpawnOptions) (reply : DaemonReply) :
    Except ExecError ExecResponse :=
  match reply with
  | .closed m => .error (.connectionClosedError m)
  | .reply response => processResponse eol response options

/-- Outcome of a public `exec` / `execModule` call: the daemon's processed
answer, a delegation to the fallback `pythonExecutionService` (recording the
arguments passed), or an error propagated to the caller. -/
inductive ExecOutcome where
  | daemonResult (response : ExecResponse)
  | fallbackExec (args : List String) (options : SpawnOptions)
  | fallbackExecModule (moduleName : String) (args : List String) (options : SpawnOptions)
  | threw (e : ExecError)
  deriving Repr, DecidableEq

/-- Settlement state of the one-shot `connectionClosedDeferred`. -/
inductive DeferredState where
  | unsettled
  | rejected (msg : String)
  deriving Repr, DecidableEq

/-- Model of the `BasePythonDaemon` fields mutated by `dispose` and
`monitorConnection`: the closed message, the `disposed` flag and the
deferred, plus counters of kill signals sent to `proc` and of teardowns of
the `disposables` (used to state idempotence of `dispose`). -/
structure DaemonState where
  connectionClosedMessage : String
  disposed : Bool
  deferred : DeferredState
  killCount : Nat
  teardownCount : Nat
  deriving Repr, DecidableEq

/-- State at construction: empty closed message, not disposed, deferred pending. -/
def initState : DaemonState :=
  { connectionClosedMessage := "", disposed := false, deferred := .unsettled,
    killCount := 0, teardownCount := 0 }

/-- Model of the `isAlive` getter: `this.connectionClosedMessage === ''`. -/
def isAlive (s : DaemonState) : Bool :=
  s.connectionClosedMessage == ""

/-- Model of `logConnectionStatus` inside `monitorConnection`: a no-op once
`disposed` is set; otherwise it appends to the closed message and rejects
the deferred with a `ConnectionClosedError` carrying the updated message. A
deferred settles at most once, so only the first rejection sticks. -/
def logConnectionStatus (msg : String) (ex : Option String) (s : DaemonState) :
    DaemonState :=
  if s.disposed then s
  else
    let m := s.connectionClosedMessage ++ msg ++
      (match ex with
       | some e => ", With Error: " ++ e
       | none => "")
    { s with
      connectionClosedMessage := m,
      deferred := match s.deferred with
        | .unsettled => .rejected m
        | r => r }

/-- Events driving the daemon's terminal state: explicit disposal plus the
four `monitorConnection` triggers. `procExit` carries Node's exit code
(`null` modelled as `none`). -/
inductive DaemonEvent where
  | dispose
  | connClose
  | connDispose
  | connError (ex : String)
  | procExit (code : Option Int)
  deriving Repr, DecidableEq

/-- Model of `dispose()`: unconditionally overwrites the closed message with
a fixed string; on the first call only, it sets `disposed`, sends one kill
signal to the process and tears the subscriptions down once. It never
settles the deferred. -/
def disposeStep (s : DaemonState) : DaemonState :=
  let s1 := { s with connectionClosedMessage := "Daemon disposed from dispose()" }
  if s1.disposed then s1
  else { s1 with disposed := true, killCount := s1.killCount + 1,
                 teardownCount := s1.teardownCount + 1 }

/-- Truthiness of the exit code passed as `ex` to `logConnectionStatus`
(both `null` and `0` are falsy in JS, so they produce no error suffix). -/
def exitCodeEx : Option Int → Option String
  | none => none
  | some c => if c = 0 then none else some (toString c)

/-- One event step of the monitor / dispose state machine. Connection events
after teardown reach no listener; this coincides with the `disposed` guard
inside `logConnectionStatus`, which already makes them no-ops. -/
def step (s : DaemonState) : DaemonEvent → DaemonState
  | .dispose => disposeStep s
  | .connClose => logConnectionStatus "Daemon Connection Closed" none s
  | .connDispose => logConnectionStatus "Daemon Connection disposed" none s
  | .connError ex => logConnectionStatus "Daemon Connection errored" (some ex) s
  | .procExit code =>
      logConnectionStatus "Daemon Processed died with exit code" (exitCodeEx code) s

/-- Run of the state machine from construction. -/
def run (events : List DaemonEvent) : DaemonState :=
  events.foldl step initState

/-- Model of the public `exec`: the guard
`this.isAlive && this.canExecFileUsingDaemon(args, options)` (short-circuit:
`args[0]` is only read when alive, and the guard sits outside the `try`),
then the daemon attempt, whose `DaemonError` / `ConnectionClosedError`
failures fall back to `pythonExecutionService.exec(args, options)` while any
other error is rethrown. -/
def exec (s : DaemonState) (args : List String) (options : SpawnOptions)
    (eol : String) (reply : DaemonReply) : ExecOutcome :=
  if isAlive s then
    match canExecFileUsingDaemon args options with
    | .error err => .threw err
    | .ok true =>
      match execWithDaemon eol options reply with
      | .ok r => .daemonResult r
      | .error e =>
        match e with
        | .daemonError _ => .fallbackExec args options
        | .connectionClosedError _ => .fallbackExec args options
        | e => .threw e
    | .ok false => .fallbackExec args options
  else .fallbackExec args options

/-- Model of the public `execModule`, analogous to `exec` but guarded by
`canExecModuleUsingDaemon`, which cannot throw. -/
def execModule (s : DaemonState) (moduleName : String) (args : List String)
    (options : SpawnOptions) (eol : String) (reply : DaemonReply) : ExecOutcome :=
  if isAlive s && canExecModuleUsingDaemon moduleName args options then
    match execWithDaemon eol options reply with
    | .ok r => .daemonResult r
    | .error e =>
      match e with
      | .daemonError _ => .fallbackExecModule moduleName args options
      | .connectionClosedError _ => .fallbackExecModule moduleName args options
      | e => .threw e
  else .fallbackExecModule moduleName args options

/-- Output event source tag of `Output<string>`. -/
inductive Source where
  | stdout
  | stderr
  deriving Repr, DecidableEq, BEq

/-- Model of `Output<string>`: `{ source, out }`. -/
structure Output where
  source : Source
  out : String
  deriving Repr, DecidableEq

/-- Stream observed by the subscriber of the subject returned by
`execAsObservable`: the emitted events, then either normal completion or a
terminal error. An rxjs subject ignores everything after its first error. -/
inductive StreamResult where
  | completed (events : List Output)
  | errored (events : List Output) (e : ExecError)
  deriving Repr, DecidableEq

/-- Model of the relay subscription inside `execAsObservable`: each relayed
event is forwarded, except that under `throwOnStdErr` a stderr-sourced event
errors the subject with `StdErrError` (stopping the stream), and otherwise
under `mergeStdOutErr` a stderr-sourced event is re-tagged as stdout. -/
def relayTransform (options : SpawnOptions) : List Output → StreamResult
  | [] => .completed []
  | o :: rest =>
    if o.source == .stderr && options.throwOnStdErr then
      .errored [] (.stdErrError o.out)
    else
      let o1 := if o.source == .stderr && options.mergeStdOutErr
                then { source := Source.stdout, out := o.out } else o
      match relayTransform options rest with
      | .completed es => .completed (o1 :: es)
      | .errored es e => .errored (o1 :: es) e

/-- Model of `execAsObservable`: the subscriber sees the transformed relay
events; when the starting request settles with a closed-state rejection, or
its response carries a truthy error field (`DaemonError`), one raw
stderr-tagged diagnostic event (the failure message plus the stderr buffered
directly from the process) is pushed and the subject errors — unless the
subject was already stopped by a `throwOnStdErr` event. The relay events are
taken to be those delivered before the grace-period unsubscribe. -/
def execAsObservable (name : String) (args : List String) (options : SpawnOptions)
    (reply : DaemonReply) (events : List Output) (rawStdErr : String) : StreamResult :=
  let base := relayTransform options events
  let startErr : Option ExecError :=
    match reply with
    | .closed m => some (.connectionClosedError m)
    | .reply resp =>
        if truthyOpt resp.error then some (.daemonError (resp.error.getD "")) else none
  match startErr with
  | none => base
  | some e =>
    match base with
    | .completed es =>
      let errorMsg := "Failed to run " ++ name ++ " as observable with args "
        ++ String.intercalate " " args
      .errored (es ++ [{ source := Source.stderr, out := errorMsg ++ "\n" ++ rawStdErr }]) e
    | .errored es e0 => .errored es e0

/-- Outcome of a public `execObservable` / `execModuleObservable` call. -/
inductive ObsOutcome where
  | daemonObs (stream : StreamResult)
  | fallbackObs (args : List String) (options : SpawnOptions)
  | fallbackModuleObs (moduleName : String) (args : List String) (options : SpawnOptions)
  | threw (e : ExecError)
  deriving Repr, DecidableEq

/-- Model of the public `execObservable`: same guard shape as `exec`; the
`TypeError` from the guard propagates synchronously (the guard sits outside
the `try`, and `execAsObservable` itself throws nothing synchronously). -/
def execObservable (s : DaemonState) (args : List String) (options : SpawnOptions)
    (reply : DaemonReply) (events : List Output) (rawStdErr : String) : ObsOutcome :=
  if isAlive s then
    match canExecFileUsingDaemon args options with
    | .error err => .threw err
    | .ok true =>
      .daemonObs (execAsObservable (args.headD "") (args.drop 1) options reply events rawStdErr)
    | .ok false => .fallbackObs args options
  else .fallbackObs args options

/-- Model of the public `execModuleObservable`. -/
def execModuleObservable (s : DaemonState) (moduleName : String) (args : List String)
    (options : SpawnOptions) (reply : DaemonReply) (events : List Output)
    (rawStdErr : String) : ObsOutcome :=
  if isAlive s && canExecModuleUsingDaemon moduleName args options then
    .daemonObs (execAsObservable moduleName args options reply events rawStdErr)
  else .fallbackModuleObs moduleName args options

/-- Settlement of a request promise: the daemon's response, the closed-state
rejection, or never (left pending). -/
inductive ReqOutcome where
  | response (r : ExecResponse)
  | closedRejection (msg : String)
  | pending
  deriving Repr, DecidableEq

/-- Model of `Promise.race` between the connection's response (arriving at
the given time, if ever) and the closed-state deferred's rejection (firing
at the given time, if ever): whichever settles strictly first wins; a tie
goes to the response, matching the argument order in the source. -/
def raceOutcome (resp : Option (Nat × ExecResponse)) (closed : Option (Nat × String)) :
    ReqOutcome :=
  match resp, closed with
  | none, none => .pending
  | some (_, r), none => .response r
  | none, some (_, m) => .closedRejection m
  | some (tr, r), some (tc, m) => if tc < tr then .closedRejection m else .response r

/-- Model of `sendRequest`: when alive and the process has no recorded exit
code (`typeof this.proc.exitCode !== 'number'`), the send is raced against
the closed-state deferred; otherwise the returned promise IS the
closed-state deferred itself. -/
def sendRequestOutcome (s : DaemonState) (exitCode : Option Int)
    (resp : Option (Nat × ExecResponse)) (closed : Option (Nat × String)) : ReqOutcome :=
  if isAlive s && exitCode.isNone then raceOutcome resp closed
  else
    match closed with
    | some (_, m) => .closedRejection m
    | none => .pending

/-- Classification tested by the catch clauses of `exec` / `execModule` /
`execObservable` / `execModuleObservable`:
`ex instanceof DaemonError || ex instanceof ConnectionClosedError`. -/
def isDaemonOrConnClosed : ExecError → Bool
  | .daemonError _ => true
  | .connectionClosedError _ => true
  | _ => false

/-- Test whether a batch outcome failed specifically with `StdErrError`. -/
def isStdErrErrorResult : Except ExecError ExecResponse → Bool
  | .error (.stdErrError _) => true
  | _ => false

/-- Closed-state signal a pending request is raced against, derived from the
deferred's settlement: `none` while the deferred is unsettled, otherwise the
rejection message stamped with the firing time. -/
def closedSignal (s : DaemonState) (t : Nat) : Option (Nat × String) :=
  match s.deferred with
  | .unsettled => none
  | .rejected m => some (t, m)

/-! Helper lemmas. -/

@[simp] theorem stderr_beq_stderr : (Source.stderr == Source.stderr) = true := rfl

@[simp] theorem stdout_beq_stderr : (Source.stdout == Source.stderr) = false := rfl

theorem string_append_ne_empty (a b : String) (h : b ≠ "") : a ++ b ≠ "" := by
  intro hc
  apply h
  have hd := congrArg String.data hc
  rw [String.data_append] at hd
  simp at hd
  cases hd
  ext
  simp [*]

theorem string_append_ne_empty_left (a b : String) (h : a ≠ "") : a ++ b ≠ "" := by
  intro hc
  apply h
  have hd := congrArg String.data hc
  rw [String.data_append] at hd
  simp at hd
  cases hd
  ext
  simp [*]

theorem areOptionsSupported_iff (options : SpawnOptions) :
    areOptionsSupported options = true ↔
      ∀ k ∈ options.keys, k ∈ daemonSupportedSpawnOptions := by
  simp [areOptionsSupported, List.all_eq_true, List.contains, List.elem_iff]

/-- C6: `areOptionsSupported` returns true iff every key present on the
options object belongs to the fixed allow-list
`{cwd, env, throwOnStdErr, token, encoding, mergeStdOutErr}`; at least one
key outside it makes it false, independently of key ordering or count. -/
theorem C6_areOptionsSupported_allowlist (options options2 : SpawnOptions) :
    (areOptionsSupported options = true ↔
      ∀ k ∈ options.keys, k ∈ daemonSupportedSpawnOptions) ∧
    ((∃ k ∈ options.keys, k ∉ daemonSupportedSpawnOptions) →
      areOptionsSupported options = false) ∧
    (List.Perm options.keys options2.keys →
      areOptionsSupported options = areOptionsSupported options2) := by
  refine ⟨areOptionsSupported_iff options, ?_, ?_⟩
  · rintro ⟨k, hk, hnot⟩
    cases hb : areOptionsSupported options with
    | false => rfl
    | true => exact absurd ((areOptionsSupported_iff options).mp hb k hk) hnot
  · intro hperm
    rw [Bool.eq_iff_iff, areOptionsSupported_iff, areOptionsSupported_iff]
    constructor <;> intro h k hk
    · exact h k (hperm.mem_iff.mpr hk)
    · exact h k (hperm.mem_iff.mp hk)

/-- C6 witness: a concrete allow-listed options object is accepted and a
concrete object with a stray key is rejected. -/
theorem C6_witness :
    areOptionsSupported ⟨["env", "cwd"], false, false⟩ = true ∧
    areOptionsSupported ⟨["cwd", "shell"], false, false⟩ = false := by
  have h1 := C6_areOptionsSupported_allowlist ⟨["env", "cwd"], false, false⟩
    ⟨["env", "cwd"], false, false⟩
  have h2 := C6_areOptionsSupported_allowlist ⟨["cwd", "shell"], false, false⟩
    ⟨["cwd", "shell"], false, false⟩
  exact ⟨h1.1.mpr (by decide), h2.2.1 ⟨"shell", by decide, by decide⟩⟩

/-- C7: for a non-empty argument list, `canExecFileUsingDaemon` is false
whenever the lowercased first argument does not end in `.py`, regardless of
the options, and is true exactly when the suffix matches and the options are
all allow-listed. -/
theorem C7_canExecFileUsingDaemon_suffix (a : String) (rest : List String)
    (options : SpawnOptions) :
    (jsEndsWith (jsToLowerCase a) ".py" = false →
      canExecFileUsingDaemon (a :: rest) options = .ok false) ∧
    (canExecFileUsingDaemon (a :: rest) options = .ok true ↔
      jsEndsWith (jsToLowerCase a) ".py" = true ∧ areOptionsSupported options = true) := by
  constructor
  · intro h
    simp [canExecFileUsingDaemon, h]
  · simp [canExecFileUsingDaemon, Bool.and_eq_true]

/-- C7 witness: a concrete non-`.py` file is rejected even with allow-listed
options, and a concrete `.py` file with allow-listed options is accepted. -/
theorem C7_witness :
    canExecFileUsingDaemon ["Script.TXT"] ⟨["cwd"], false, false⟩ = .ok false ∧
    canExecFileUsingDaemon ["Script.PY"] ⟨["cwd"], false, false⟩ = .ok true :=
  ⟨(C7_canExecFileUsingDaemon_suffix "Script.TXT" [] ⟨["cwd"], false, false⟩).1 (by decide),
   (C7_canExecFileUsingDaemon_suffix "Script.PY" [] ⟨["cwd"], false, false⟩).2.mpr
     ⟨by decide, by decide⟩⟩

/-- C10: while the daemon is alive, `exec` and `execObservable` with an
empty argument list read `args[0]` unconditionally inside
`canExecFileUsingDaemon`, so the call throws a runtime `TypeError` rather
than returning a result, rejecting with one of the typed daemon errors, or
delegating to the fallback executor. -/
theorem C10_empty_args_typeError (s : DaemonState) (options : SpawnOptions)
    (eol : String) (reply : DaemonReply) (events : List Output) (rawStdErr : String)
    (h : isAlive s = true) :
    exec s [] options eol reply = .threw .typeError ∧
    execObservable s [] options reply events rawStdErr = .threw .typeError := by
  constructor <;> simp [exec, execObservable, canExecFileUsingDaemon, h]

/-- C10 witness: the freshly constructed daemon is alive and both empty-args
calls throw the `TypeError`. -/
theorem C10_witness :
    exec initState [] ⟨[], false, false⟩ "\n" (.reply ⟨none, "", none⟩) =
      .threw .typeError ∧
    execObservable initState [] ⟨[], false, false⟩ (.reply ⟨none, "", none⟩) [] "" =
      .threw .typeError :=
  C10_empty_args_typeError initState ⟨[], false, false⟩ "\n" (.reply ⟨none, "", none⟩) [] "" rfl

/-- C1 counterexample: the claim that the merged result "carries no stderr
field" is false. At the concrete response `{stdout := "out", stderr := "err"}`
under `mergeStdOutErr`, `processResponse` merges stderr into stdout but keeps
`stderr := some "err"` on the result, because the merge branch only
reassigns `response.stdout` and never deletes `response.stderr`. -/
theorem C1_counterexample :
    processResponse "\n" ⟨none, "out", some "err"⟩ ⟨["mergeStdOutErr"], false, true⟩ =
      .ok ⟨none, "out" ++ "\n" ++ "err", some "err"⟩ ∧
    some "err" ≠ (none : Option String) := by
  exact ⟨by rfl, by decide⟩

/-- C1 amended: for a response with non-empty stderr under `mergeStdOutErr`
(with no error field and `throwOnStdErr` unset, so that a result is returned
at all), the result's stdout equals the original stdout, then the platform
line separator, then stderr — and the stderr field is retained unchanged on
the result rather than dropped. -/
theorem C1_merge_appends_and_keeps_stderr (eol sout serr : String)
    (options : SpawnOptions) (hserr : serr ≠ "")
    (hm : options.mergeStdOutErr = true) (ht : options.throwOnStdErr = false) :
    processResponse eol ⟨none, sout, some serr⟩ options =
      .ok ⟨none, sout ++ eol ++ serr, some serr⟩ := by
  simp [processResponse, truthyOpt, hserr, hm, ht]
  rcases eq_or_ne sout "" with h | h <;> simp [h]

/-- C1 witness: the amended merge behaviour at a concrete response. -/
theorem C1_witness :
    processResponse "\r\n" ⟨none, "hello", some "warn"⟩ ⟨["mergeStdOutErr"], false, true⟩ =
      .ok ⟨none, "hello" ++ "\r\n" ++ "warn", some "warn"⟩ :=
  C1_merge_appends_and_keeps_stderr "\r\n" "hello" "warn"
    ⟨["mergeStdOutErr"], false, true⟩ (by decide) rfl rfl

/-- C8 counterexample: a response can carry both a truthy error field and
non-empty stderr under `throwOnStdErr`; the error field takes precedence, so
the call fails with `DaemonError`, not `StdErrError`, contradicting the
claim as stated. -/
theorem C8_counterexample :
    processResponse "\n" ⟨some "boom", "", some "x"⟩ ⟨[], true, false⟩ =
      .error (.daemonError "Failed to execute using the daemon, boom") ∧
    isStdErrErrorResult (processResponse "\n" ⟨some "boom", "", some "x"⟩ ⟨[], true, false⟩) =
      false := by
  exact ⟨by rfl, by rfl⟩

theorem relayTransform_throw_on_first_stderr (options : SpawnOptions)
    (hthrow : options.throwOnStdErr = true) (pre : List Output)
    (hpre : ∀ e ∈ pre, e.source = .stdout) (o : Output) (ho : o.source = .stderr)
    (post : List Output) :
    relayTransform options (pre ++ o :: post) = .errored pre (.stdErrError o.out) := by
  induction pre with
  | nil =>
    simp [relayTransform, ho, hthrow]
  | cons e es ih =>
    have he : e.source = .stdout := hpre e (by simp)
    have ih2 := ih fun x hx => hpre x (by simp [hx])
    simp [relayTransform, he, ih2]

/-- C8 amended: under `throwOnStdErr` and non-empty stderr, a batch response
without a truthy error field fails with `StdErrError`; when the error field
is also set the call still fails (with `DaemonError`, which takes
precedence) — in either case no successful result is produced. In the
streaming path the first stderr-sourced event errors the stream with
`StdErrError` and no later event is relayed past it. -/
theorem C8_throwOnStdErr_fails (eol : String) (resp : ExecResponse)
    (options : SpawnOptions) (pre post : List Output) (o : Output) :
    (truthyOpt resp.error = false → truthyOpt resp.stderr = true →
      options.throwOnStdErr = true →
      processResponse eol resp options = .error (.stdErrError (resp.stderr.getD ""))) ∧
    (truthyOpt resp.stderr = true → options.throwOnStdErr = true →
      ∀ r, processResponse eol resp options ≠ .ok r) ∧
    (options.throwOnStdErr = true → o.source = .stderr →
      (∀ e ∈ pre, e.source = .stdout) →
      relayTransform options (pre ++ o :: post) = .errored pre (.stdErrError o.out)) := by
  refine ⟨?_, ?_, ?_⟩
  · intro he hs ht
    simp [processResponse, he, hs, ht]
  · intro hs ht r
    cases he : truthyOpt resp.error <;> simp [processResponse, he, hs, ht]
  · intro ht ho hpre
    exact relayTransform_throw_on_first_stderr options ht pre hpre o ho post

/-- C8 witness: at a concrete batch response and a concrete event stream,
`throwOnStdErr` produces the `StdErrError` failures. -/
theorem C8_witness :
    processResponse "\n" ⟨none, "", some "err"⟩ ⟨[], true, false⟩ =
      .error (.stdErrError "err") ∧
    relayTransform ⟨[], true, false⟩
        [⟨Source.stdout, "a"⟩, ⟨Source.stderr, "warn"⟩] =
      .errored [⟨Source.stdout, "a"⟩] (.stdErrError "warn") := by
  have h := C8_throwOnStdErr_fails "\n" ⟨none, "", some "err"⟩ ⟨[], true, false⟩
    [⟨Source.stdout, "a"⟩] [] ⟨Source.stderr, "warn"⟩
  exact ⟨h.1 rfl (by decide) rfl, h.2.2 rfl rfl (by decide)⟩

/-- C5: for a daemon-eligible `exec` or `execModule` call whose daemon
attempt fails, exactly the `ConnectionClosedError` / `DaemonError` classes
are retried once through the fallback executor's equivalent call with the
same arguments and options; any other error class (including `StdErrError`)
propagates to the caller unchanged with no fallback invocation. -/
theorem C5_fallback_only_daemon_errors (s : DaemonState) (a : String)
    (rest args : List String) (moduleName : String) (options : SpawnOptions)
    (eol : String) (reply : DaemonReply) (e : ExecError)
    (halive : isAlive s = true) :
    (canExecFileUsingDaemon (a :: rest) options = .ok true →
      execWithDaemon eol options reply = .error e →
      (isDaemonOrConnClosed e = true →
        exec s (a :: rest) options eol reply = .fallbackExec (a :: rest) options) ∧
      (isDaemonOrConnClosed e = false →
        exec s (a :: rest) options eol reply = .threw e)) ∧
    (canExecModuleUsingDaemon moduleName args options = true →
      execWithDaemon eol options reply = .error e →
      (isDaemonOrConnClosed e = true →
        execModule s moduleName args options eol reply =
          .fallbackExecModule moduleName args options) ∧
      (isDaemonOrConnClosed e = false →
        execModule s moduleName args options eol reply = .threw e)) := by
  constructor
  · intro hgate herr
    constructor <;> intro hclass <;> cases e <;>
      simp_all [exec, isDaemonOrConnClosed]
  · intro hgate herr
    constructor <;> intro hclass <;> cases e <;>
      simp_all [execModule, isDaemonOrConnClosed]

/-- C5 witness: at a concrete alive daemon whose closed-state race fired,
both calls fall back with the original arguments; nothing else occurs. -/
theorem C5_witness :
    exec initState ["a.py"] ⟨[], false, false⟩ "\n" (.closed "gone") =
      .fallbackExec ["a.py"] ⟨[], false, false⟩ ∧
    execModule initState "pip" ["list"] ⟨[], false, false⟩ "\n" (.closed "gone") =
      .fallbackExecModule "pip" ["list"] ⟨[], false, false⟩ := by
  have h := C5_fallback_only_daemon_errors initState "a.py" [] ["list"] "pip"
    ⟨[], false, false⟩ "\n" (.closed "gone") (.connectionClosedError "gone") rfl
  exact ⟨(h.1 (by rfl) rfl).1 rfl, (h.2 rfl rfl).1 rfl⟩

/-- C3: a request dispatched while the daemon is alive (and before an exit
code is recorded on the process) is raced against the shared closed-state
signal; if that signal fires strictly before the daemon's response would
arrive, the call settles with the closed-state rejection and the late
response is discarded. -/
theorem C3_closed_signal_wins_race (s : DaemonState) (r : ExecResponse)
    (tr tc : Nat) (m : String) (halive : isAlive s = true) (hbefore : tc < tr) :
    sendRequestOutcome s none (some (tr, r)) (some (tc, m)) = .closedRejection m ∧
    sendRequestOutcome s none (some (tr, r)) (some (tc, m)) ≠ .response r := by
  have h1 : sendRequestOutcome s none (some (tr, r)) (some (tc, m)) =
      .closedRejection m := by
    simp [sendRequestOutcome, halive, raceOutcome, hbefore]
  exact ⟨h1, by simp [h1]⟩

/-- C3 witness: with the closed signal firing at time 0 and the response at
time 1, the concrete call settles via the closed-state rejection. -/
theorem C3_witness :
    sendRequestOutcome initState none (some (1, ⟨none, "late", none⟩)) (some (0, "dead")) =
      .closedRejection "dead" ∧
    sendRequestOutcome initState none (some (1, ⟨none, "late", none⟩)) (some (0, "dead")) ≠
      .response ⟨none, "late", none⟩ :=
  C3_closed_signal_wins_race initState ⟨none, "late", none⟩ 1 0 "dead" rfl (by decide)

theorem disposeStep_msg (s : DaemonState) :
    (disposeStep s).connectionClosedMessage = "Daemon disposed from dispose()" := by
  cases hd : s.disposed <;> simp [disposeStep, hd]

theorem logConnectionStatus_msg_ne (msg : String) (hmsg : msg ≠ "")
    (ex : Option String) (s : DaemonState)
    (hinv : s.disposed = true → s.connectionClosedMessage ≠ "") :
    (logConnectionStatus msg ex s).connectionClosedMessage ≠ "" := by
  unfold logConnectionStatus
  split
  · exact hinv (by assumption)
  · exact string_append_ne_empty_left _ _ (string_append_ne_empty _ _ hmsg)

theorem step_msg_ne (s : DaemonState)
    (hinv : s.disposed = true → s.connectionClosedMessage ≠ "") (e : DaemonEvent) :
    (step s e).connectionClosedMessage ≠ "" := by
  cases e with
  | dispose =>
    show (disposeStep s).connectionClosedMessage ≠ ""
    rw [disposeStep_msg]
    decide
  | connClose => exact logConnectionStatus_msg_ne _ (by decide) _ _ hinv
  | connDispose => exact logConnectionStatus_msg_ne _ (by decide) _ _ hinv
  | connError ex => exact logConnectionStatus_msg_ne _ (by decide) _ _ hinv
  | procExit code => exact logConnectionStatus_msg_ne _ (by decide) _ _ hinv

theorem foldl_msg_ne (l : List DaemonEvent) (s : DaemonState)
    (h : s.connectionClosedMessage ≠ "") :
    (l.foldl step s).connectionClosedMessage ≠ "" := by
  induction l generalizing s with
  | nil => exact h
  | cons e es ih => exact ih (step s e) (step_msg_ne s (fun _ => h) e)

theorem foldl_inv (l : List DaemonEvent) (s : DaemonState)
    (hinv : s.disposed = true → s.connectionClosedMessage ≠ "") :
    (l.foldl step s).disposed = true → (l.foldl step s).connectionClosedMessage ≠ "" := by
  induction l generalizing s with
  | nil => exact hinv
  | cons e es ih => exact ih (step s e) (fun _ => step_msg_ne s hinv e)

/-- C4: once any close trigger has fired — a connection close, connection
dispose, connection error, process exit, or an explicit `dispose()` —
`isAlive` is false after every later event sequence, and each of the four
execute operations then delegates to the fallback executor without any
daemon attempt. -/
theorem C4_closed_is_terminal (pre post : List DaemonEvent) (e : DaemonEvent)
    (moduleName : String) (args : List String) (options : SpawnOptions)
    (eol : String) (reply : DaemonReply) (events : List Output) (rawStdErr : String) :
    isAlive (run (pre ++ e :: post)) = false ∧
    exec (run (pre ++ e :: post)) args options eol reply = .fallbackExec args options ∧
    execModule (run (pre ++ e :: post)) moduleName args options eol reply =
      .fallbackExecModule moduleName args options ∧
    execObservable (run (pre ++ e :: post)) args options reply events rawStdErr =
      .fallbackObs args options ∧
    execModuleObservable (run (pre ++ e :: post)) moduleName args options reply events
        rawStdErr =
      .fallbackModuleObs moduleName args options := by
  have hne : (run (pre ++ e :: post)).connectionClosedMessage ≠ "" := by
    unfold run
    rw [List.foldl_append, List.foldl_cons]
    exact foldl_msg_ne post _
      (step_msg_ne _ (foldl_inv pre initState (fun h => absurd h (by decide))) e)
  have hdead : isAlive (run (pre ++ e :: post)) = false := by
    unfold isAlive
    rw [beq_eq_false_iff_ne]
    exact hne
  exact ⟨hdead, by simp [exec, hdead], by simp [execModule, hdead],
    by simp [execObservable, hdead], by simp [execModuleObservable, hdead]⟩

/-- C9: calling `dispose()` twice sends exactly one kill signal and tears
the subscriptions down exactly once; the second call leaves the state
unchanged (the closed reason is already the dispose message), the deferred
is never touched, and `isAlive` is false after any `dispose()`. -/
theorem C9_dispose_idempotent (s : DaemonState) (h : s.disposed = false) :
    (disposeStep (disposeStep s)).killCount = s.killCount + 1 ∧
    (disposeStep (disposeStep s)).teardownCount = s.teardownCount + 1 ∧
    disposeStep (disposeStep s) = disposeStep s ∧
    isAlive (disposeStep s) = false ∧
    (disposeStep s).deferred = s.deferred := by
  unfold disposeStep isAlive
  simp [h]

/-- C9 witness: double dispose from the freshly constructed daemon. -/
theorem C9_witness :
    (disposeStep (disposeStep initState)).killCount = initState.killCount + 1 ∧
    (disposeStep (disposeStep initState)).teardownCount = initState.teardownCount + 1 ∧
    disposeStep (disposeStep initState) = disposeStep initState ∧
    isAlive (disposeStep initState) = false ∧
    (disposeStep initState).deferred = initState.deferred :=
  C9_dispose_idempotent initState rfl

theorem logConnectionStatus_deferred_rejected (msg : String) (ex : Option String)
    (s : DaemonState) (m : String) (h : s.deferred = .rejected m) :
    (logConnectionStatus msg ex s).deferred = .rejected m := by
  unfold logConnectionStatus
  split
  · exact h
  · simp [h]

theorem deferred_rejected_persists (l : List DaemonEvent) (s : DaemonState)
    (m : String) (h : s.deferred = .rejected m) :
    (l.foldl step s).deferred = .rejected m := by
  induction l generalizing s with
  | nil => exact h
  | cons e es ih =>
    refine ih (step s e) ?_
    cases e with
    | dispose =>
      show (disposeStep s).deferred = _
      cases hd : s.disposed <;> simp [disposeStep, hd, h]
    | connClose => exact logConnectionStatus_deferred_rejected _ _ _ _ h
    | connDispose => exact logConnectionStatus_deferred_rejected _ _ _ _ h
    | connError ex => exact logConnectionStatus_deferred_rejected _ _ _ _ h
    | procExit code => exact logConnectionStatus_deferred_rejected _ _ _ _ h

theorem logConnectionStatus_rejects (msg : String) (ex : Option String)
    (s : DaemonState) (hdisp : s.disposed = false) :
    ∃ m, (logConnectionStatus msg ex s).deferred = .rejected m := by
  unfold logConnectionStatus
  simp [hdisp]
  cases hd : s.deferred with
  | unsettled =>
    simp only [hd]
    exact ⟨_, rfl⟩
  | rejected m =>
    simp only [hd]
    exact ⟨m, rfl⟩

/-- C2 counterexample: `dispose()` itself never rejects the closed-state
deferred, and with `disposed` set, later monitor events are suppressed. At
the concrete event sequence dispose-then-exit-then-close, the daemon is
disposed, its process has died, `isAlive` is false — yet the deferred is
still unsettled, so a pending request whose daemon response never arrives
stays pending forever instead of settling through the closed-state path. -/
theorem C2_counterexample :
    isAlive (run [.dispose, .procExit (some 137), .connClose]) = false ∧
    (run [.dispose, .procExit (some 137), .connClose]).disposed = true ∧
    (run [.dispose, .procExit (some 137), .connClose]).deferred =
      DeferredState.unsettled ∧
    sendRequestOutcome (run [.dispose, .procExit (some 137), .connClose]) (some 137)
      none (closedSignal (run [.dispose, .procExit (some 137), .connClose]) 0) =
      .pending := by
  refine ⟨by rfl, by rfl, by rfl, by rfl⟩

/-- C2 amended: a pending request settles through the closed-state rejection
whenever one of the four monitor triggers (connection close / dispose /
error, process exit) fires while the daemon is not yet disposed, and that
rejection persists through every later event including `dispose()`;
`dispose()` itself, however, never rejects the deferred, so a request still
pending at dispose time with no prior monitor trigger is not settled by the
closed-state path. -/
theorem C2_monitor_rejects_pending (s : DaemonState) (e : DaemonEvent)
    (post : List DaemonEvent) (hdisp : s.disposed = false) (he : e ≠ .dispose) :
    ∃ m, (post.foldl step (step s e)).deferred = .rejected m ∧
      sendRequestOutcome (post.foldl step (step s e)) none none
        (closedSignal (post.foldl step (step s e)) 0) = .closedRejection m := by
  obtain ⟨m, hm⟩ : ∃ m, (step s e).deferred = .rejected m := by
    cases e with
    | dispose => exact absurd rfl he
    | connClose => exact logConnectionStatus_rejects _ _ _ hdisp
    | connDispose => exact logConnectionStatus_rejects _ _ _ hdisp
    | connError ex => exact logConnectionStatus_rejects _ _ _ hdisp
    | procExit code => exact logConnectionStatus_rejects _ _ _ hdisp
  have hpersist := deferred_rejected_persists post (step s e) m hm
  refine ⟨m, hpersist, ?_⟩
  cases halive : isAlive (post.foldl step (step s e)) <;>
    simp [sendRequestOutcome, halive, closedSignal, hpersist, raceOutcome]

/-- C2 witness: after a concrete connection-close on the fresh daemon
followed by a dispose, the deferred is rejected and a pending request
settles through the closed-state rejection. -/
theorem C2_witness :
    ∃ m, ([DaemonEvent.dispose].foldl step (step initState .connClose)).deferred =
        .rejected m ∧
      sendRequestOutcome ([DaemonEvent.dispose].foldl step (step initState .connClose))
        none none
        (closedSignal ([DaemonEvent.dispose].foldl step (step initState .connClose)) 0) =
        .closedRejection m :=
  C2_monitor_rejects_pending initState .connClose [.dispose] rfl (by decide)

end BaseDaemon
